import Mathlib

/-!
Verification of the autocxx code-generation core: the conversion policy
resolver (`engine/src/conversion/codegen_rs/function_wrapper_rs.rs`) and the
additional-C++ generator (`engine/src/additional_cpp_generator.rs`).

Token streams produced by the source's quotation macros are embedded as
strings, rendered token-for-token in source order; literal braces inside
string literals are written with their hexadecimal escapes.
-/

namespace AutocxxSpec

/-- Rust types to the extent the conversion code inspects them: the source
only distinguishes pointer types (matching on the pointee) from everything
else, and otherwise re-emits the type verbatim. -/
inductive RsType
  | ptr (mutbl : Bool) (elem : RsType)
  | path (name : String)
deriving DecidableEq

/-- Token rendering of a type, used where the source interpolates a type
into a quotation. -/
def RsType.render : RsType → String
  | .ptr true e => "*mut " ++ e.render
  | .ptr false e => "*const " ++ e.render
  | .path n => n

/-- Whether a type is a raw pointer type (the source's match on Type Ptr). -/
def RsType.isPtr : RsType → Bool
  | .ptr _ _ => true
  | .path _ => false

/-- Binding patterns to the extent the conversion code inspects them: the
source only distinguishes a plain identifier pattern from any other
pattern. -/
inductive Pat
  | ident (name : String)
  | wild
deriving DecidableEq

/-- Token rendering of a pattern, used where the source interpolates the
bound pattern into a quotation. -/
def Pat.render : Pat → String
  | .ident n => n
  | .wild => "_"

/-- Modelled from the spec: the subclass handle carried by the boxed-holder
conversion. Its accessors (the subclass identifier and its holder type
name) are defined in function_wrapper.rs, which is not part of the sources
here; we carry their rendered results as fields. -/
structure SubclassName where
  id : String
  holderName : String
deriving DecidableEq

/-- The seven Rust-side conversion strategies of the source enum. -/
inductive RustConversionType
  | none
  | fromStr
  | toBoxedUpHolder (sub : SubclassName)
  | fromPinMaybeUninitToPtr
  | fromPinMoveRefToPtr
  | fromTypeToPtr
  | fromValueParamToPtr
deriving DecidableEq

/-- The per-value conversion policy, restricted to the fields the Rust-side
resolver reads: the underlying unwrapped type and the conversion tag. The
struct itself is declared in function_wrapper.rs (not in the sources); the
fields are exactly those used by function_wrapper_rs.rs. -/
structure TypeConversionPolicy where
  unwrapped_type : RsType
  rust_conversion : RustConversionType
deriving DecidableEq

/-- Modelled from the spec: converted_rust_type is defined in the missing
function_wrapper.rs. The spec's None policy passes the value through
unchanged, so the boundary-visible type is modelled as the rendering of the
underlying type. No theorem below depends on its value. -/
def converted_rust_type (p : TypeConversionPolicy) : String :=
  p.unwrapped_type.render

/-- The Rust-facing parameter type for a wrapper call site
(rust_wrapper_unconverted_type in function_wrapper_rs.rs). The source's
panics on a non-pointer underlying type become explicit errors. -/
def rust_wrapper_unconverted_type (p : TypeConversionPolicy) : Except String String :=
  match p.rust_conversion with
  | .none => .ok (converted_rust_type p)
  | .toBoxedUpHolder sub =>
    .ok ("autocxx::subclass::CppSubclassRustPeerHolder<super::super::super::" ++ sub.id ++ ">")
  | .fromStr => .ok "impl ToCppString"
  | .fromPinMaybeUninitToPtr =>
    match p.unwrapped_type with
    | .ptr _ elem => .ok ("::std::pin::Pin<&mut ::std::mem::MaybeUninit<" ++ elem.render ++ ">>")
    | _ => .error "Not a ptr"
  | .fromPinMoveRefToPtr =>
    match p.unwrapped_type with
    | .ptr _ elem =>
      .ok ("::std::pin::Pin<autocxx::moveit::MoveRef<\x27_, " ++ elem.render ++ ">>")
    | _ => .error "Not a ptr"
  | .fromTypeToPtr =>
    match p.unwrapped_type with
    | .ptr _ elem => .ok ("&mut " ++ elem.render)
    | _ => .error "Not a ptr"
  | .fromValueParamToPtr =>
    .ok ("impl autocxx::ValueParam<" ++ p.unwrapped_type.render ++ ">")

/-- The call-site adapter (rust_conversion in function_wrapper_rs.rs):
an optional setup statement plus the argument-position expression. The
source's panic on a non-identifier pattern in the value-parameter case
becomes an explicit error. -/
def rust_conversion (p : TypeConversionPolicy) (var : Pat) (wrapInUnsafeBlock : Bool) :
    Except String (Option String × String) :=
  match p.rust_conversion with
  | .none => .ok (Option.none, var.render)
  | .fromStr => .ok (Option.none, var.render ++ ".into_cpp()")
  | .toBoxedUpHolder sub =>
    .ok (Option.none, "Box::new(" ++ sub.holderName ++ "(" ++ var.render ++ "))")
  | .fromPinMaybeUninitToPtr =>
    .ok (Option.none, var.render ++ ".get_unchecked_mut().as_mut_ptr()")
  | .fromPinMoveRefToPtr =>
    .ok (Option.none,
      "\x7b let r: &mut _ = ::std::pin::Pin::into_inner_unchecked(" ++ var.render
        ++ ".as_mut()); r \x7d")
  | .fromTypeToPtr => .ok (Option.none, var.render)
  | .fromValueParamToPtr =>
    match var with
    | .ident var_name =>
      let space_var_name := var_name ++ "_space"
      let call := space_var_name ++ ".populate()"
      let call := if wrapInUnsafeBlock then "unsafe \x7b " ++ call ++ " \x7d" else call
      .ok (Option.some
        ("let mut " ++ space_var_name ++ " = autocxx::ValueParamHandler::new(" ++ var_name
          ++ "); let " ++ space_var_name ++ " = &mut " ++ space_var_name ++ "; " ++ call),
        space_var_name ++ ".get_ptr()")
    | _ => .error "Unexpected non-ident parameter name"

/-- Occurrence check for a token inside an emitted string, used to state
that no unsafe-execution marker appears in an emitted expression. -/
def tokenOccursIn (pat : String) : List Char → Bool
  | [] => pat.data.isPrefixOf []
  | c :: cs => pat.data.isPrefixOf (c :: cs) || tokenOccursIn pat cs

/-- Claim C1: for every ValueParamToPointer policy and bound identifier x,
the adapter returns a setup statement that declares the scratch holder
x_space initialized from x, re-binds it by mutable reference, and populates
it via a method invocation that is wrapped in an unsafe-execution marker
exactly when requires-unsafe-wrapping is true; the final expression
retrieves the raw pointer from x_space. -/
theorem c1_value_param_adaptation (u : RsType) (x : String) (b : Bool) :
    rust_conversion ⟨u, .fromValueParamToPtr⟩ (.ident x) b =
      .ok (Option.some
        ("let mut " ++ (x ++ "_space") ++ " = autocxx::ValueParamHandler::new(" ++ x
          ++ "); let " ++ (x ++ "_space") ++ " = &mut " ++ (x ++ "_space") ++ "; "
          ++ (if b then "unsafe \x7b " ++ ((x ++ "_space") ++ ".populate()") ++ " \x7d"
              else (x ++ "_space") ++ ".populate()")),
        (x ++ "_space") ++ ".get_ptr()") :=
  rfl

/-- Claim C3: a pointer-deriving conversion variant (PinnedUninitToPointer,
PinnedMoveRefToPointer, TypeToPointer) applied to a non-pointer underlying
type makes the boundary-facing-type computation fail with an observable
error rather than produce a type; and the value-parameter adaptation fails
with an observable error on a non-identifier bound pattern. -/
theorem c3_contract_violations_fail :
    (∀ p : TypeConversionPolicy, p.unwrapped_type.isPtr = false →
      (p.rust_conversion = .fromPinMaybeUninitToPtr ∨
        p.rust_conversion = .fromPinMoveRefToPtr ∨
        p.rust_conversion = .fromTypeToPtr) →
      rust_wrapper_unconverted_type p = .error "Not a ptr")
    ∧ (∀ (u : RsType) (b : Bool),
        rust_conversion ⟨u, .fromValueParamToPtr⟩ .wild b =
          .error "Unexpected non-ident parameter name") := by
  constructor
  · rintro ⟨u, rc⟩ hptr (h | h | h) <;> subst h <;>
      cases u with
      | ptr m e => simp [RsType.isPtr] at hptr
      | path n => rfl
  · intro u b
    rfl

/-- Witness for C3: both failures observed at concrete inputs. -/
theorem c3_contract_violations_fail_witness :
    rust_wrapper_unconverted_type ⟨RsType.path "T", .fromPinMoveRefToPtr⟩ =
        .error "Not a ptr"
    ∧ rust_conversion ⟨RsType.path "T", .fromValueParamToPtr⟩ .wild true =
        .error "Unexpected non-ident parameter name" :=
  ⟨c3_contract_violations_fail.1 ⟨RsType.path "T", .fromPinMoveRefToPtr⟩ rfl
      (Or.inr (Or.inl rfl)),
    c3_contract_violations_fail.2 (RsType.path "T") true⟩

/-- The exact expression emitted by the PinnedMoveRefToPointer adaptation at
the counterexample input below. -/
def pinMoveRefBlock : String :=
  "\x7b let r: &mut _ = ::std::pin::Pin::into_inner_unchecked(x.as_mut()); r \x7d"

/-- Counterexample for C9: at a concrete PinnedMoveRefToPointer policy the
adapter emits a plain block expression; no unsafe-execution marker occurs
anywhere in the emitted expression (even with the requires-unsafe-wrapping
flag set), so the claim that the extraction sits inside a narrowly scoped
unsafe block whose marker is part of the expression is false. -/
theorem c9_no_unsafe_marker_counterexample :
    rust_conversion ⟨RsType.ptr true (RsType.path "A"), .fromPinMoveRefToPtr⟩
        (Pat.ident "x") true = .ok (Option.none, pinMoveRefBlock)
    ∧ tokenOccursIn "unsafe" pinMoveRefBlock.data = false := by
  exact ⟨rfl, by decide⟩

/-- Claim C9 as amended: for every PinnedMoveRefToPointer policy the adapter
returns no setup statement, and its expression is a plain block that binds a
plain mutable reference extracted from the pin wrapper (via the unchecked
pin-projection call) and yields it; the emitted expression carries no
unsafe-execution marker of its own and relies on the enclosing context. -/
theorem c9_pin_move_ref_adaptation (u : RsType) (var : Pat) (b : Bool) :
    rust_conversion ⟨u, .fromPinMoveRefToPtr⟩ var b =
      .ok (Option.none,
        "\x7b let r: &mut _ = ::std::pin::Pin::into_inner_unchecked(" ++ var.render
          ++ ".as_mut()); r \x7d") :=
  rfl

/-- An include: a header name plus the flag distinguishing system from
local include syntax (struct Header of additional_cpp_generator.rs). -/
structure Header where
  name : String
  system : Bool
deriving DecidableEq

/-- The include statement a header renders to (Header::include_stmt). -/
def Header.include_stmt (h : Header) : String :=
  if h.system then "#include <" ++ h.name ++ ">"
  else "#include \"" ++ h.name ++ "\""

/-- One generated glue function: declaration, definition, and the headers
its text requires (struct AdditionalFunction). -/
structure AdditionalFunction where
  declaration : String
  definition : String
  headers : List Header
deriving DecidableEq

/-- The materialized output blocks (struct AdditionalCpp). -/
structure AdditionalCpp where
  declarations : String
  definitions : String
deriving DecidableEq

/-- Modelled from the spec: the C++-side view of a per-argument
ConversionPolicy. Its operations (unconverted_type, converted_type and
conversion of function_wrapper.rs, each taking the type database) are not
in the sources here; following the spec they are carried as the already
resolved/rendered results: the two type spellings and the conversion
expression as a function of the argument name. -/
structure CppConversionPolicy where
  unconverted_type : String
  converted_type : String
  conversion : String → String

/-- Modelled from the spec: the None policy passes the value through
unchanged, and its boundary type spellings coincide with the underlying
type's. -/
def CppConversionPolicy.nonePolicy (ty : String) : CppConversionPolicy :=
  ⟨ty, ty, fun s => s⟩

/-- The three shapes of underlying call a wrapper can make
(enum FunctionWrapperPayload). -/
inductive FunctionWrapperPayload
  | Constructor
  | FunctionCall (ns : List String) (id : String)
  | StaticMethodCall (ns : List String) (ty_id : String) (fn_id : String)

/-- Description of the underlying C++ call to wrap (struct FunctionWrapper,
declared in function_wrapper.rs; fields exactly as consumed by
additional_cpp_generator.rs). -/
structure FunctionWrapper where
  payload : FunctionWrapperPayload
  wrapper_function_name : String
  is_a_method : Bool
  argument_conversion : List CppConversionPolicy
  return_conversion : Option CppConversionPolicy

/-- Argument naming for generated wrappers: position 0 of a method wrapper
gets the reserved receiver name, every other position gets arg followed by
its index (closure get_arg_name). -/
def get_arg_name (is_a_method : Bool) (counter : Nat) : String :=
  if is_a_method && counter == 0 then "autocxx_gen_this" else "arg" ++ toString counter

/-- The underlying function call expression built inside
generate_by_value_wrapper: each policy's conversion expression is rendered
from its argument name; when the spec marks a method, the first conversion
expression is consumed as the receiver and the rest form the argument list;
the payload variant selects the final call shape. -/
def underlying_function_call (details : FunctionWrapper) : String :=
  let conversions := details.argument_conversion.enum.map fun p =>
    p.2.conversion (get_arg_name details.is_a_method p.1)
  let receiver := if details.is_a_method then conversions.head? else Option.none
  let arg_list := String.intercalate ", "
    (if details.is_a_method then conversions.tail else conversions)
  match details.payload with
  | .Constructor => arg_list
  | .FunctionCall ns id =>
    match receiver with
    | Option.some r => r ++ "." ++ id ++ "(" ++ arg_list ++ ")"
    | Option.none => String.intercalate "::" (ns ++ [id]) ++ "(" ++ arg_list ++ ")"
  | .StaticMethodCall ns ty_id fn_id =>
    String.intercalate "::" (ns ++ [ty_id, fn_id]) ++ "(" ++ arg_list ++ ")"

/-- The by-value wrapper generation routine (generate_by_value_wrapper):
builds the declaration from the converted return type, wrapper name and the
rendered parameter list, then the definition around the underlying call,
wrapping it in a return conversion when one is present. The source pushes
the resulting AdditionalFunction onto the generator; here it is returned. -/
def generate_by_value_wrapper (details : FunctionWrapper) : AdditionalFunction :=
  let args := String.intercalate ", " (details.argument_conversion.enum.map fun p =>
    p.2.unconverted_type ++ " " ++ get_arg_name details.is_a_method p.1)
  let ret_type := match details.return_conversion with
    | Option.none => "void"
    | Option.some x => x.converted_type
  let declaration := ret_type ++ " " ++ details.wrapper_function_name ++ "(" ++ args ++ ")"
  let call := underlying_function_call details
  let call := match details.return_conversion with
    | Option.some ret => "return " ++ ret.conversion call
    | Option.none => call
  let definition := declaration ++ " \x7b " ++ call ++ "; \x7d"
  { declaration := declaration ++ ";"
    definition := definition
    headers := [⟨"memory", true⟩] }

/-- The string-constructor generation routine
(generate_string_constructor). -/
def generate_string_constructor : AdditionalFunction :=
  let declaration := "std::unique_ptr<std::string> make_string(::rust::Str str)"
  { declaration := declaration ++ ";"
    definition :=
      declaration ++ " \x7b return std::make_unique<std::string>(std::string(str)); \x7d"
    headers := [⟨"memory", true⟩, ⟨"string", true⟩, ⟨"cxx.h", false⟩] }

/-- A unit of requested glue (enum AdditionalNeed). -/
inductive AdditionalNeed
  | MakeStringConstructor
  | FunctionWrapper (wrapper : FunctionWrapper)

/-- The generation routine a need dispatches to inside add_needs. -/
def needFunction : AdditionalNeed → AdditionalFunction
  | .MakeStringConstructor => generate_string_constructor
  | .FunctionWrapper w => generate_by_value_wrapper w

/-- The generator's accumulated state (struct AdditionalCppGenerator). -/
structure AdditionalCppGenerator where
  additional_functions : List AdditionalFunction
  inclusions : String

/-- AdditionalCppGenerator::new. -/
def AdditionalCppGenerator.new (inclusions : String) : AdditionalCppGenerator :=
  ⟨[], inclusions⟩

/-- add_needs: for each need in order, dispatch and append exactly one
generated function. The type-database argument of the source is already
folded into the modelled policies. -/
def add_needs (g : AdditionalCppGenerator) (additions : List AdditionalNeed) :
    AdditionalCppGenerator :=
  additions.foldl
    (fun g need =>
      { g with additional_functions := g.additional_functions ++ [needFunction need] })
    g

/-- The distinct headers required across all accumulated functions: the
contents of the HashSet collected in generate. -/
def headerSet (g : AdditionalCppGenerator) : List Header :=
  ((g.additional_functions.map fun f => f.headers).flatten).dedup

/-- The source iterates the collected HashSet of headers, whose iteration
order is unspecified: an admissible iteration order is any enumeration of
the set, i.e. any permutation of its contents. -/
def ValidIterationOrder (g : AdditionalCppGenerator) (order : List Header) : Prop :=
  order.Perm (headerSet g)

/-- concat_additional_items: newline-join a field across the accumulated
functions, with a trailing newline. -/
def concat_additional_items (g : AdditionalCppGenerator)
    (field_access : AdditionalFunction → String) : String :=
  String.intercalate "\n" (g.additional_functions.map field_access) ++ "\n"

/-- generate: none when no function was accumulated; otherwise the
declarations block (include statements in HashSet iteration order, the
inclusions preamble, then the declarations) and the definitions block (the
umbrella include then the definitions). The unspecified HashSet iteration
order is passed explicitly. -/
def generate (g : AdditionalCppGenerator) (order : List Header) : Option AdditionalCpp :=
  if g.additional_functions.isEmpty then Option.none
  else
    let headers := String.intercalate "\n" (order.map Header.include_stmt)
    let declarations := concat_additional_items g fun x => x.declaration
    let declarations := headers ++ "\n" ++ g.inclusions ++ "\n" ++ declarations
    let definitions := concat_additional_items g fun x => x.definition
    let definitions := "#include \"autocxxgen.h\"\n" ++ definitions
    Option.some { declarations := declarations, definitions := definitions }

/-- Claim C2: a method-marked spec with a FreeFunctionCall payload, one
None-policy receiver, one None-policy argument and no return policy yields
a declaration whose 0th parameter is named autocxx_gen_this and a
definition whose body is the bare method-call statement on the receiver,
with no return keyword. -/
theorem c2_method_wrapper_shape (tyR tyA name method : String) (ns : List String) :
    generate_by_value_wrapper
        ⟨.FunctionCall ns method, name, true,
          [CppConversionPolicy.nonePolicy tyR, CppConversionPolicy.nonePolicy tyA],
          Option.none⟩ =
      { declaration :=
          "void " ++ name ++ "(" ++ (tyR ++ " " ++ "autocxx_gen_this" ++ ", "
            ++ (tyA ++ " " ++ "arg1")) ++ ")" ++ ";"
        definition :=
          "void " ++ name ++ "(" ++ (tyR ++ " " ++ "autocxx_gen_this" ++ ", "
              ++ (tyA ++ " " ++ "arg1")) ++ ")"
            ++ " \x7b " ++ ("autocxx_gen_this" ++ "." ++ method ++ "(" ++ "arg1" ++ ")")
            ++ "; \x7d"
        headers := [⟨"memory", true⟩] } := by
  have h1 : generate_by_value_wrapper
      ⟨.FunctionCall ns method, name, true,
        [CppConversionPolicy.nonePolicy tyR, CppConversionPolicy.nonePolicy tyA],
        Option.none⟩ =
      { declaration :=
          "void " ++ name ++ "(" ++ (tyR ++ " " ++ "autocxx_gen_this" ++ ", "
            ++ (tyA ++ " " ++ ("arg" ++ toString 1))) ++ ")" ++ ";"
        definition :=
          "void " ++ name ++ "(" ++ (tyR ++ " " ++ "autocxx_gen_this" ++ ", "
              ++ (tyA ++ " " ++ ("arg" ++ toString 1))) ++ ")"
            ++ " \x7b "
            ++ ("autocxx_gen_this" ++ "." ++ method ++ "(" ++ ("arg" ++ toString 1) ++ ")")
            ++ "; \x7d"
        headers := [⟨"memory", true⟩] } := rfl
  rw [h1]
  rfl

/-- Counterexample for C8: a receiver-marked spec with an empty policy
sequence does not make wrapper generation fail; at this concrete spec the
routine emits a complete declaration and definition, so the claim that it
fails fast without emitting any C++ text is false. -/
theorem c8_empty_method_spec_emits_text :
    generate_by_value_wrapper ⟨.FunctionCall [] "foo", "wrap", true, [], Option.none⟩ =
      { declaration := "void wrap();"
        definition := "void wrap() \x7b foo(); \x7d"
        headers := [⟨"memory", true⟩] } := by
  decide

/-- Claim C8 as amended: for every receiver-marked spec with an empty
sequence of conversion policies (FreeFunctionCall payload, no return
policy), wrapper generation does not fail: the receiver is simply absent,
and the routine emits a wrapper whose body calls the underlying function
with an empty argument list. -/
theorem c8_empty_method_spec_generation (ns : List String) (id name : String) :
    generate_by_value_wrapper ⟨.FunctionCall ns id, name, true, [], Option.none⟩ =
      { declaration := "void " ++ name ++ "(" ++ "" ++ ")" ++ ";"
        definition :=
          "void " ++ name ++ "(" ++ "" ++ ")"
            ++ " \x7b " ++ (String.intercalate "::" (ns ++ [id]) ++ "(" ++ "" ++ ")")
            ++ "; \x7d"
        headers := [⟨"memory", true⟩] } :=
  rfl

/-- Claim C10: for a Constructor payload on a receiver-marked spec, the
generated call expression is exactly the joined conversion expressions of
arguments 1 onward (rendered from their positional names), and the first
argument's conversion expression is discarded: the generated function is
unchanged under any replacement of the 0th policy's conversion function
and converted type. -/
theorem c10_constructor_discards_receiver (ty cv cv' : String) (f g : String → String)
    (rest : List CppConversionPolicy) (name : String) (ret : Option CppConversionPolicy) :
    underlying_function_call ⟨.Constructor, name, true, ⟨ty, cv, f⟩ :: rest, ret⟩ =
      String.intercalate ", " (rest.enum.map fun p =>
        p.2.conversion ("arg" ++ toString (p.1 + 1)))
    ∧ generate_by_value_wrapper ⟨.Constructor, name, true, ⟨ty, cv, f⟩ :: rest, ret⟩ =
      generate_by_value_wrapper ⟨.Constructor, name, true, ⟨ty, cv', g⟩ :: rest, ret⟩ := by
  constructor
  · show String.intercalate ", "
        ((List.enumFrom 1 rest).map fun p => p.2.conversion (get_arg_name true p.1)) = _
    rw [← List.map_fst_add_enum_eq_enumFrom rest 1, List.map_map]
    rfl
  · rfl

/-- The fold inside add_needs appends exactly the per-need generated
functions, in submission order. -/
theorem add_needs_functions (g : AdditionalCppGenerator) (additions : List AdditionalNeed) :
    (add_needs g additions).additional_functions =
      g.additional_functions ++ additions.map needFunction := by
  induction additions generalizing g with
  | nil => simp [add_needs]
  | cons n ns ih =>
    show (add_needs
        { g with additional_functions := g.additional_functions ++ [needFunction n] }
        ns).additional_functions = _
    rw [ih]
    simp

/-- add_needs never touches the inclusions preamble. -/
theorem add_needs_inclusions (g : AdditionalCppGenerator) (additions : List AdditionalNeed) :
    (add_needs g additions).inclusions = g.inclusions := by
  induction additions generalizing g with
  | nil => rfl
  | cons n ns ih =>
    show (add_needs
        { g with additional_functions := g.additional_functions ++ [needFunction n] }
        ns).inclusions = _
    rw [ih]

/-- Claim C6: every submitted need yields exactly one generated function
(one-to-one, in submission order), and the materialized declaration and
definition strings appear in the two blocks in exactly submission order. -/
theorem c6_one_function_per_need_in_order :
    (∀ (incl : String) (needs : List AdditionalNeed),
      (add_needs (AdditionalCppGenerator.new incl) needs).additional_functions =
          needs.map needFunction
        ∧ (add_needs (AdditionalCppGenerator.new incl) needs).additional_functions.length =
          needs.length)
    ∧ ∀ (incl : String) (needs : List AdditionalNeed) (order : List Header), needs ≠ [] →
        generate (add_needs (AdditionalCppGenerator.new incl) needs) order =
          Option.some
            { declarations :=
                String.intercalate "\n" (order.map Header.include_stmt) ++ "\n" ++ incl
                  ++ "\n"
                  ++ (String.intercalate "\n"
                        (needs.map fun n => (needFunction n).declaration) ++ "\n")
              definitions :=
                "#include \"autocxxgen.h\"\n"
                  ++ (String.intercalate "\n"
                        (needs.map fun n => (needFunction n).definition) ++ "\n") } := by
  constructor
  · intro incl needs
    have h : (add_needs (AdditionalCppGenerator.new incl) needs).additional_functions =
        needs.map needFunction := by
      rw [add_needs_functions]
      rfl
    exact ⟨h, by rw [h, List.length_map]⟩
  · intro incl needs order hne
    cases needs with
    | nil => exact absurd rfl hne
    | cons n ns =>
      have h : (add_needs (AdditionalCppGenerator.new incl)
          (n :: ns)).additional_functions = needFunction n :: ns.map needFunction := by
        rw [add_needs_functions]
        rfl
      have hincl : (add_needs (AdditionalCppGenerator.new incl) (n :: ns)).inclusions =
          incl := add_needs_inclusions _ _
      simp only [generate, h, hincl, concat_additional_items, List.isEmpty_cons,
        Bool.false_eq_true, if_false, List.map_cons, List.map_map]
      rfl

/-- Witness for C6 at a concrete submission: one string-constructor need,
empty header iteration order, empty inclusions. -/
theorem c6_one_function_per_need_in_order_witness :
    generate (add_needs (AdditionalCppGenerator.new "")
        [AdditionalNeed.MakeStringConstructor]) [] =
      Option.some
        { declarations :=
            "\n\nstd::unique_ptr<std::string> make_string(::rust::Str str);\n"
          definitions :=
            "#include \"autocxxgen.h\"\nstd::unique_ptr<std::string> make_string(::rust::Str str) \x7b return std::make_unique<std::string>(std::string(str)); \x7d\n" } := by
  exact c6_one_function_per_need_in_order.2 "" [AdditionalNeed.MakeStringConstructor] []
    (List.cons_ne_nil _ _)

/-- Claim C7: materialization returns none exactly when no need was ever
submitted; an empty submission is not an error, there is just nothing to
emit. -/
theorem c7_generate_none_iff_empty (incl : String) (needs : List AdditionalNeed)
    (order : List Header) :
    generate (add_needs (AdditionalCppGenerator.new incl) needs) order = Option.none ↔
      needs = [] := by
  cases needs with
  | nil =>
    simp [generate, add_needs, AdditionalCppGenerator.new, List.isEmpty_nil]
  | cons n ns =>
    have h : (add_needs (AdditionalCppGenerator.new incl)
        (n :: ns)).additional_functions = needFunction n :: ns.map needFunction := by
      rw [add_needs_functions]
      rfl
    simp [generate, h]

/-- Left inverse of Header.include_stmt, recovering the header from its
include statement; it certifies that distinct headers always render to
distinct include statements. -/
def include_stmt_inv (s : String) : Header :=
  ⟨String.mk ((s.data.drop 10).dropLast), s.data.getD 9 ' ' == '<'⟩

theorem include_stmt_inv_leftInv : ∀ h : Header,
    include_stmt_inv (Header.include_stmt h) = h := by
  rintro ⟨name, sys⟩
  cases sys
  · show include_stmt_inv ("#include \"" ++ name ++ "\"") = ⟨name, false⟩
    have hdata : ("#include \"" ++ name ++ "\"").data =
        ("#include \"" : String).data ++ (name.data ++ ['\"']) := by
      rw [String.data_append, String.data_append, List.append_assoc]
    unfold include_stmt_inv
    congr 1
    · rw [hdata,
        @List.drop_left' Char (("#include \"" : String).data) (name.data ++ ['\"']) 10
          (by rfl),
        List.dropLast_concat]
  · show include_stmt_inv ("#include <" ++ name ++ ">") = ⟨name, true⟩
    have hdata : ("#include <" ++ name ++ ">").data =
        ("#include <" : String).data ++ (name.data ++ ['>']) := by
      rw [String.data_append, String.data_append, List.append_assoc]
    unfold include_stmt_inv
    congr 1
    · rw [hdata,
        @List.drop_left' Char (("#include <" : String).data) (name.data ++ ['>']) 10
          (by rfl),
        List.dropLast_concat]

theorem include_stmt_injective : Function.Injective Header.include_stmt :=
  Function.LeftInverse.injective include_stmt_inv_leftInv

/-- Claim C5: each distinct header required by at least one accumulated
function contributes exactly one include statement to the emitted header
list of the declarations block, under every admissible iteration order of
the header set, no matter how many functions require it. -/
theorem c5_header_dedup (incl : String) (needs : List AdditionalNeed)
    (order : List Header) (h : Header)
    (hord : ValidIterationOrder (add_needs (AdditionalCppGenerator.new incl) needs) order)
    (hmem : h ∈ headerSet (add_needs (AdditionalCppGenerator.new incl) needs)) :
    (order.map Header.include_stmt).count (Header.include_stmt h) = 1 := by
  rw [List.count_map_of_injective _ _ include_stmt_injective]
  exact List.count_eq_one_of_mem (hord.symm.nodup (List.nodup_dedup _))
    ((List.Perm.mem_iff hord).2 hmem)

/-- Witness for C5 at a concrete generator and iteration order. -/
theorem c5_header_dedup_witness :
    (((headerSet (add_needs (AdditionalCppGenerator.new "")
            [AdditionalNeed.MakeStringConstructor])).map Header.include_stmt).count
        (Header.include_stmt ⟨"memory", true⟩)) = 1 :=
  c5_header_dedup "" [AdditionalNeed.MakeStringConstructor] _ ⟨"memory", true⟩
    (List.Perm.refl _) (by decide)

/-- The generator state and two admissible header iteration orders used to
exhibit the non-determinism of the emitted header block. -/
def c4_gen : AdditionalCppGenerator :=
  add_needs (AdditionalCppGenerator.new "") [AdditionalNeed.MakeStringConstructor]

def c4_order1 : List Header := [⟨"memory", true⟩, ⟨"string", true⟩, ⟨"cxx.h", false⟩]

def c4_order2 : List Header := [⟨"string", true⟩, ⟨"memory", true⟩, ⟨"cxx.h", false⟩]

/-- Claim C4 fails on the code: generate iterates the collected header
HashSet, whose iteration order is unspecified, so two runs on identical
submitted needs and identical inclusions may emit the include statements in
different orders; here two admissible iteration orders of the same
generator state produce declaration blocks that are not byte-identical. -/
theorem c4_header_order_unstable :
    ValidIterationOrder c4_gen c4_order1 ∧ ValidIterationOrder c4_gen c4_order2 ∧
      generate c4_gen c4_order1 ≠ generate c4_gen c4_order2 := by
  refine ⟨?_, ?_, by decide⟩
  · show c4_order1.Perm (headerSet c4_gen)
    have h : headerSet c4_gen = c4_order1 := by decide
    rw [h]
  · show c4_order2.Perm (headerSet c4_gen)
    have h : headerSet c4_gen = c4_order1 := by decide
    rw [h]
    exact List.Perm.swap _ _ _

end AutocxxSpec
